import Mathlib

/-!
Verification development for the ssx-server sign-in pipeline
(`packages/ssx-server/src/server.ts`).

The server code (`login`, `logout`, `resolveEns`) is embedded directly from
the source.  The SIWE message codec and verifier (the `siwe` dependency), the
ssx-core helpers (`ssxResolveEns`, `ssxLog`) and the ethers recovery primitive
are not part of the source tree; they are modelled from the specification
(sections 4.1-4.4, 6) as external collaborators, with raw cryptographic
recovery and the on-chain predicate kept abstract as environment parameters.
-/

namespace SSX

/-- Raw serialized form of a sign-in message: the byte sequence is represented
line by line, each line as its list of characters.  This is the payload type
consumed by `parse` and produced by `canonicalize`. -/
abbrev Raw := List (List Char)

/-- Error taxonomy of the verifier (spec section 7; the kinds produced by the
verification pipeline itself). -/
inductive SiweErrorKind
  | malformedMessage
  | nonceMismatch
  | expired
  | invalidSignature
  deriving DecidableEq, Repr

/-- Modelled from the spec: SignInMessage (spec section 3) / `SiweMessage` of
the `siwe` dependency, which is not under the source tree.  Structured record
with address, chain identifier, timestamps, statement, resources and the
nonce it was issued against.  Timestamps and the chain id are kept as their
grammar-level string tokens (ISO-8601 strings compare chronologically as
strings); resources are a list of URI strings. -/
structure SiweMessage where
  domain : String
  address : String
  statement : String
  uri : String
  version : String
  chainId : String
  nonce : String
  issuedAt : String
  expirationTime : Option String
  resources : List String
  deriving DecidableEq, Repr

/-- Header suffix of the first line of the canonical payload. -/
def headerTag : String := " wants you to sign in with your Ethereum account:"

/-- Tag of the URI line of the canonical payload. -/
def uriTag : String := "URI: "

/-- Tag of the Version line of the canonical payload. -/
def versionTag : String := "Version: "

/-- Tag of the Chain ID line of the canonical payload. -/
def chainTag : String := "Chain ID: "

/-- Tag of the Nonce line of the canonical payload. -/
def nonceTag : String := "Nonce: "

/-- Tag of the Issued At line of the canonical payload. -/
def issuedTag : String := "Issued At: "

/-- Tag of the Expiration Time line of the canonical payload. -/
def expTag : String := "Expiration Time: "

/-- Header line of the resources section of the canonical payload. -/
def resourcesTag : String := "Resources:"

/-- Item marker of each resource line of the canonical payload. -/
def dashTag : String := "- "

/-- Serialization of the optional expiration line. -/
def serializeExp : Option String → Raw
  | some t => [expTag.data ++ t.data]
  | none => []

/-- Serialization of the resources section: absent when there are no
resources, otherwise a header line followed by one marked line per
resource. -/
def serializeResources : List String → Raw
  | [] => []
  | r :: rs =>
    resourcesTag.data :: (r :: rs).map (fun x => dashTag.data ++ x.data)

/-- Modelled from the spec: `canonicalize` (spec section 4.2) /
`prepareMessage` of the `siwe` dependency, which is not under the source
tree.  Deterministically re-derives the exact signing payload from the
structured message, following the sign-in message grammar (header line with
the domain, bare address line, blank line, statement, blank line, the tagged
fields, the optional expiration line, then the resources section). -/
def canonicalize (m : SiweMessage) : Raw :=
  [ m.domain.data ++ headerTag.data
  , m.address.data
  , []
  , m.statement.data
  , []
  , uriTag.data ++ m.uri.data
  , versionTag.data ++ m.version.data
  , chainTag.data ++ m.chainId.data
  , nonceTag.data ++ m.nonce.data
  , issuedTag.data ++ m.issuedAt.data ]
  ++ (serializeExp m.expirationTime ++ serializeResources m.resources)

/-- Strips a leading tag from a character list, returning the remainder, or
none when the tag does not lead the list. -/
def stripTag : List Char → List Char → Option (List Char)
  | [], s => some s
  | _ :: _, [] => none
  | c :: t, d :: s => if c = d then stripTag t s else none

/-- Strips a trailing tag from a character list, returning the remainder
before it, or none when the tag does not end the list. -/
def stripTagEnd (t s : List Char) : Option (List Char) :=
  (stripTag t.reverse s.reverse).map List.reverse

/-- Nonempty all-digit token check (chain id grammar). -/
def digitsOk (l : List Char) : Bool :=
  !l.isEmpty && l.all Char.isDigit

/-- Grammar-level field checks enforced by the message constructor: address
format, chain id digits, nonempty nonce and issue timestamp (spec section
4.2). -/
def fieldOk (m : SiweMessage) : Bool :=
  (stripTag ['0', 'x'] m.address.data).isSome &&
  digitsOk m.chainId.data &&
  !m.nonce.data.isEmpty &&
  !m.issuedAt.data.isEmpty

/-- Strips the item marker from every line of a resources section, failing
when any line is not a marked resource. -/
def stripAll : Raw → Option (List String)
  | [] => some []
  | l :: ls =>
    match stripTag dashTag.data l, stripAll ls with
    | some r, some rs => some (String.mk r :: rs)
    | _, _ => none

/-- Parses the resources section of the canonical payload: empty when the
section is absent, otherwise a header line followed by marked resource
lines. -/
def parseResources (lines : Raw) : Option (List String) :=
  match lines with
  | [] => some []
  | h :: items => if h = resourcesTag.data then stripAll items else none

/-- Parses the tail of the canonical payload after the Issued At line: an
optional expiration line followed by the resources section. -/
def parseTail (rest : Raw) : Option (Option String × List String) :=
  match rest with
  | [] => some (none, [])
  | l :: ls =>
    match stripTag expTag.data l with
    | some t => (parseResources ls).map (fun rs => (some (String.mk t), rs))
    | none => (parseResources rest).map (fun rs => ((none : Option String), rs))

/-- Modelled from the spec: `parse` (spec section 4.2) / the `SiweMessage`
constructor of the `siwe` dependency, which is not under the source tree.
Fails (none, i.e. MalformedMessage) when required fields are missing or the
input does not satisfy the sign-in message grammar, including its optional
expiration line and resources section. -/
def parse (lines : Raw) : Option SiweMessage :=
  match lines with
  | l1 :: l2 :: [] :: l4 :: [] :: l6 :: l7 :: l8 :: l9 :: l10 :: rest =>
    match stripTagEnd headerTag.data l1, stripTag uriTag.data l6,
          stripTag versionTag.data l7, stripTag chainTag.data l8,
          stripTag nonceTag.data l9, stripTag issuedTag.data l10 with
    | some dom, some uri, some ver, some cid, some non, some iss =>
      match parseTail rest with
      | some (expt, rs) =>
        let m : SiweMessage :=
          ⟨String.mk dom, String.mk l2, String.mk l4, String.mk uri,
           String.mk ver, String.mk cid, String.mk non, String.mk iss,
           expt, rs⟩
        if fieldOk m then some m else none
      | none => none
    | _, _, _, _, _, _ => none
  | _ => none

/-- A string is a single grammar line: it contains no newline character. -/
def noNl (s : String) : Bool := !s.data.contains '\n'

/-- Validity of a sign-in message: field checks pass and every field is a
single line, so the structured record and its byte-level serialization are in
exact correspondence. -/
def wellFormed (m : SiweMessage) : Bool :=
  fieldOk m &&
  noNl m.domain && noNl m.address && noNl m.statement && noNl m.uri &&
  noNl m.version && noNl m.chainId && noNl m.nonce && noNl m.issuedAt &&
  (match m.expirationTime with
   | some t => noNl t
   | none => true) &&
  m.resources.all noNl

/-- Identity data returned by the naming-service resolver (`SSXEnsData` of
ssx-core): optional display name and avatar reference; absent fields are
valid. -/
structure SSXEnsData where
  ensName : Option String
  ensAvatarUrl : Option String
  deriving DecidableEq, Repr

/-- The empty identity record. -/
def emptyEns : SSXEnsData := ⟨none, none⟩

/-- Options bounding which identity attributes to fetch (`SSXEnsResolveOptions`
of ssx-core). -/
structure SSXEnsResolveOptions where
  domain : Bool
  avatar : Bool
  deriving DecidableEq, Repr

/-- The `resolveEns` argument of `login` is truthy-dispatched in the source
(`false`, `true`, or an options object); this type mirrors the three cases. -/
inductive ResolveEnsParam
  | off
  | enabled
  | withOpts (opts : SSXEnsResolveOptions)
  deriving DecidableEq, Repr

/-- Audit event types dispatched to the metrics sink (`SSXEventLogTypes` of
ssx-core; `login` only builds LOGIN events). -/
inductive SSXEventLogTypes
  | LOGIN
  deriving DecidableEq, Repr

/-- External environment of one login attempt: the raw signature-recovery
primitive (`utils.verifyMessage` of ethers; `none` models a thrown recovery
exception), the on-chain fallback predicate `verifyOnChain` (spec section 6),
the outcome of the naming-service lookup (`none` models an internal error or
lookup miss), the current time, and the availability of the event sink. -/
structure Env where
  recover : Raw → String → Option String
  verifyOnChain : String → Raw → String → Bool
  ensLookup : Option SSXEnsData
  now : String
  sinkOk : Bool

/-- Result of signature verification (spec section 3, VerificationResult):
success flag, optional error kind, the verified message (the `data` field of
the siwe response), and whether success came from the fallback path. -/
structure VerificationResult where
  success : Bool
  error : Option SiweErrorKind
  data : SiweMessage
  contractFallbackUsed : Bool
  deriving DecidableEq, Repr

/-- A message is expired when the current time is not before its expiration
timestamp, if one is present (ISO-8601 strings compare chronologically). -/
def isExpired (now : String) (m : SiweMessage) : Bool :=
  match m.expirationTime with
  | some t => !(decide (now < t))
  | none => false

/-- Modelled from the spec: `SiweMessage.verify` of the `siwe` dependency,
which is not under the source tree, following the SignatureVerifier algorithm
of spec section 4.3: reject NonceMismatch on a nonce difference, reject
Expired past the expiration, then attempt direct recovery over the canonical
payload; on direct failure delegate to the on-chain fallback predicate only
when the fallback is enabled; otherwise fail with InvalidSignature. -/
def verify (env : Env) (m : SiweMessage) (signature : String)
    (expectedNonce : String) (allowContractFallback : Bool) :
    VerificationResult :=
  if m.nonce ≠ expectedNonce then
    ⟨false, some SiweErrorKind.nonceMismatch, m, false⟩
  else if isExpired env.now m then
    ⟨false, some SiweErrorKind.expired, m, false⟩
  else if env.recover (canonicalize m) signature = some m.address then
    ⟨true, none, m, false⟩
  else if allowContractFallback &&
      env.verifyOnChain m.address (canonicalize m) signature then
    ⟨true, none, m, true⟩
  else
    ⟨false, some SiweErrorKind.invalidSignature, m, false⟩

/-- Modelled from the spec: `ssxResolveEns` of ssx-core, which is not under
the source tree, following IdentityResolver (spec section 4.4): any internal
error or lookup miss yields an empty IdentityData; it never fails. -/
def ssxResolveEns (env : Env) (_address : String)
    (_resolveEnsOpts : Option SSXEnsResolveOptions) : SSXEnsData :=
  match env.ensLookup with
  | some d => d
  | none => emptyEns

/-- The `resolveEns` method of SSXServer (server.ts lines 190-197): a direct
delegation to `ssxResolveEns`. -/
def resolveEns (env : Env) (address : String)
    (resolveEnsOpts : Option SSXEnsResolveOptions) : SSXEnsData :=
  ssxResolveEns env address resolveEnsOpts

/-- The `ens` value assembled inside `login` (server.ts lines 122-137): it is
initialised to the empty object, and the destructuring of the awaited promise
array overwrites it.  When `resolveEns` is falsy only the verification promise
is in the array, so the destructured `ensData` is `undefined` (modelled
`none`); when truthy, the resolver result is taken, passing the options object
through when the argument is not literally `true` (server.ts lines 124-129). -/
def ensOf (env : Env) (re : ResolveEnsParam) (m : SiweMessage) :
    Option SSXEnsData :=
  match re with
  | ResolveEnsParam.off => none
  | ResolveEnsParam.enabled => some (resolveEns env m.address none)
  | ResolveEnsParam.withOpts o => some (resolveEns env m.address (some o))

/-- Audit event built by `login` (server.ts lines 159-167): chain-qualified
subject identifier, event type, and content carrying the signature, the raw
message input and the `isGnosis` classification flag. -/
structure AuditEvent where
  userId : String
  type : SSXEventLogTypes
  signature : String
  siwe : Raw
  isGnosis : Bool
  deriving DecidableEq, Repr

/-- Session payload returned by `login` (server.ts lines 175-180): the
re-parsed message, the signature, the daoLogin flag and the ens data (which is
`undefined`, modelled `none`, when identity resolution was not requested). -/
structure SessionRecord where
  siwe : SiweMessage
  signature : String
  daoLogin : Bool
  ens : Option SSXEnsData
  deriving DecidableEq, Repr

/-- Return value of `login` (server.ts lines 105-109 and 172-181).  The
`session` field is a plain record in the source: whenever `login` returns, a
session object is present. -/
structure LoginResult where
  success : Bool
  error : Option SiweErrorKind
  session : SessionRecord
  deriving DecidableEq, Repr

/-- Exceptions that escape `login`: the uncaught `SiweMessage` constructor
throw (server.ts line 110) and the rethrown classification recovery exception
(server.ts lines 154-157). -/
inductive LoginThrow
  | parseError
  | recoveryError
  deriving DecidableEq, Repr

/-- Modelled from the spec: `ssxLog` of ssx-core, which is not under the
source tree; the EventSink contract is best-effort, returning whether the sink
accepted the event (spec section 6).  `login` dispatches to it without
awaiting. -/
def ssxLog (env : Env) (_data : AuditEvent) : Bool := env.sinkOk

/-- The `login` method of SSXServer (server.ts lines 99-182), embedded over
the environment.  The raw message input is parsed by the message constructor
(line 110; a constructor throw escapes uncaught), verification and identity
resolution are merged (lines 112-143), the classification re-runs direct
recovery over the re-serialized verified message (lines 145-157; a recovery
throw is rethrown), the audit event is built and dispatched fire-and-forget
(lines 159-170), and the result couples the verification outcome with the
assembled session record (lines 172-181).  The second component is the list
of audit events dispatched during the attempt. -/
def login (env : Env) (siwe : Raw) (signature : String) (daoLogin : Bool)
    (re : ResolveEnsParam) (nonce : String) :
    Except LoginThrow LoginResult × List AuditEvent :=
  match parse siwe with
  | none => (Except.error LoginThrow.parseError, [])
  | some siweMessage =>
    let vres := verify env siweMessage signature nonce daoLogin
    let ens : Option SSXEnsData := ensOf env re siweMessage
    match env.recover (canonicalize vres.data) signature with
    | none => (Except.error LoginThrow.recoveryError, [])
    | some recovered =>
      let smartContractWalletOrCustomMethod : Bool :=
        !(recovered == vres.data.address)
      let event : AuditEvent :=
        ⟨"did:pkh:eip155:" ++ vres.data.chainId ++ ":" ++ vres.data.address,
         SSXEventLogTypes.LOGIN, signature, siwe,
         daoLogin && smartContractWalletOrCustomMethod⟩
      (Except.ok ⟨vres.success, vres.error,
                  ⟨siweMessage, signature, daoLogin, ens⟩⟩,
       [event])

/-- The `logout` method of SSXServer (server.ts lines 205-209): it returns
`destroySession?.()`, i.e. `undefined` (modelled `none`) when no destroy
capability is supplied, and the capability's result otherwise. -/
def logout (destroySession : Option (Unit → Bool)) : Option Bool :=
  destroySession.map fun d => d ()

deriving instance DecidableEq for Except

/-- Concrete well-formed sign-in message used as a test fixture. -/
def msgA : SiweMessage :=
  ⟨"example.com", "0xAb1", "Sign in", "https://example.com", "1", "1",
   "abc123", "2023-01-01T00:00:00Z", none, []⟩

/-- Concrete well-formed sign-in message with an expiration timestamp and a
nonempty resources list, used as a codec fixture. -/
def msgR : SiweMessage :=
  ⟨"service.org", "0xBc2", "Sign", "https://service.org/login", "1", "137",
   "n0nce", "2023-05-01T00:00:00Z", some "2023-05-02T00:00:00Z",
   ["https://service.org/r1", "ipfs://Qm1"]⟩

/-- Environment where direct recovery always yields the fixture's address
(a valid EOA signature), the on-chain predicate rejects, and the identity
lookup misses. -/
def envA : Env :=
  ⟨fun _ _ => some "0xAb1", fun _ _ _ => false, none, "2023-01-01T01:00:00Z",
   true⟩

/-- Environment where direct recovery yields a different address than the
fixture's (a contract-account signer whose signature ECDSA recovery can still
process), and the on-chain predicate accepts. -/
def envB : Env :=
  ⟨fun _ _ => some "0xCC", fun _ _ _ => true, none, "2023-01-01T01:00:00Z",
   true⟩

/-- Environment where direct recovery throws (a signature format ECDSA
recovery cannot process, as for typical contract-wallet signatures) and the
on-chain predicate accepts. -/
def envN : Env :=
  ⟨fun _ _ => none, fun _ _ _ => true, none, "2023-01-01T01:00:00Z", true⟩

/-- Environment like `envA` but with a successful identity lookup. -/
def envC : Env :=
  ⟨fun _ _ => some "0xAb1", fun _ _ _ => false,
   some ⟨some "alice.eth", none⟩, "2023-01-01T01:00:00Z", true⟩

/-- Stripping a tag from a list it leads recovers the remainder. -/
theorem stripTag_append (t x : List Char) : stripTag t (t ++ x) = some x := by
  induction t with
  | nil => rfl
  | cons c t ih => simp [stripTag, ih]

/-- Stripping a tag from the end of a list it ends recovers the part before
it. -/
theorem stripTagEnd_append (t x : List Char) :
    stripTagEnd t (x ++ t) = some x := by
  simp [stripTagEnd, List.reverse_append, stripTag_append]

/-- Rebuilding a string from its character data is the identity. -/
theorem mk_data (s : String) : String.mk s.data = s := rfl

/-- Stripping the item markers from a serialized resource list recovers the
resources. -/
theorem stripAll_map (rs : List String) :
    stripAll (rs.map (fun x => dashTag.data ++ x.data)) = some rs := by
  induction rs with
  | nil => rfl
  | cons r rs ih => simp [stripAll, stripTag_append, ih, mk_data]

/-- Parsing the serialized resources section recovers the resource list. -/
theorem parseResources_serialize (rs : List String) :
    parseResources (serializeResources rs) = some rs := by
  cases rs with
  | nil => rfl
  | cons r rs =>
    simp [serializeResources, parseResources, stripAll, stripTag_append,
      stripAll_map, mk_data]

/-- Parsing the serialized tail of the canonical payload recovers the
expiration timestamp and the resource list. -/
theorem parseTail_serialize (e : Option String) (rs : List String) :
    parseTail (serializeExp e ++ serializeResources rs) = some (e, rs) := by
  cases e with
  | none =>
    cases rs with
    | nil => rfl
    | cons r rs =>
      have hs : stripTag expTag.data resourcesTag.data = none := by decide
      simp [serializeExp, serializeResources, parseTail, hs, parseResources,
        stripAll, stripTag_append, stripAll_map, mk_data]
  | some t =>
    simp [serializeExp, parseTail, stripTag_append, mk_data,
      parseResources_serialize]

/-- The verifier returns the input message as the verified data in every
branch. -/
theorem verify_data (env : Env) (m : SiweMessage) (s n : String) (f : Bool) :
    (verify env m s n f).data = m := by
  unfold verify
  split
  · rfl
  · split
    · rfl
    · split
      · rfl
      · split <;> rfl

/-- Re-parsing the canonical payload of a message whose grammar-level field
checks pass recovers the message exactly. -/
theorem parse_canonicalize (m : SiweMessage) (h : fieldOk m = true) :
    parse (canonicalize m) = some m := by
  cases m with
  | mk domain address statement uri version chainId nonce issuedAt exp rs =>
    simp only [canonicalize, parse, List.cons_append, List.nil_append,
      stripTag_append, stripTagEnd_append, parseTail_serialize]
    simp_all [parse]

/-- Verification with a mismatched nonce fails with NonceMismatch, whatever
the signature or fallback configuration. -/
theorem verify_nonceMismatch (env : Env) (m : SiweMessage) (s n : String)
    (f : Bool) (h : m.nonce ≠ n) :
    verify env m s n f = ⟨false, some SiweErrorKind.nonceMismatch, m, false⟩ := by
  unfold verify
  rw [if_pos h]

/-- Verification succeeds directly when recovery yields the claimed address
on a matching, unexpired message. -/
theorem verify_direct_ok (env : Env) (m : SiweMessage) (s n : String)
    (f : Bool) (hn : m.nonce = n) (he : isExpired env.now m = false)
    (hd : env.recover (canonicalize m) s = some m.address) :
    verify env m s n f = ⟨true, none, m, false⟩ := by
  unfold verify
  rw [if_neg (not_not_intro hn), if_neg (by simp [he]), if_pos hd]

/-- Verification succeeds via the fallback path when direct recovery misses,
the fallback is enabled and the on-chain predicate passes. -/
theorem verify_fallback_ok (env : Env) (m : SiweMessage) (s n : String)
    (hn : m.nonce = n) (he : isExpired env.now m = false)
    (hd : env.recover (canonicalize m) s ≠ some m.address)
    (hc : env.verifyOnChain m.address (canonicalize m) s = true) :
    verify env m s n true = ⟨true, none, m, true⟩ := by
  unfold verify
  rw [if_neg (not_not_intro hn), if_neg (by simp [he]), if_neg hd,
    if_pos (by simp [hc])]

/-- With the fallback disabled, verification of a matching, unexpired message
whose direct recovery misses fails with InvalidSignature, and the on-chain
predicate plays no role. -/
theorem verify_invalid_noFallback (env : Env) (m : SiweMessage) (s n : String)
    (hn : m.nonce = n) (he : isExpired env.now m = false)
    (hd : env.recover (canonicalize m) s ≠ some m.address) :
    verify env m s n false =
      ⟨false, some SiweErrorKind.invalidSignature, m, false⟩ := by
  unfold verify
  rw [if_neg (not_not_intro hn), if_neg (by simp [he]), if_neg hd,
    if_neg (by simp)]

/-- Unfolding of `login` on a parsable input whose classification recovery
returns an address. -/
theorem login_eq (env : Env) (siwe : Raw) (signature : String)
    (daoLogin : Bool) (re : ResolveEnsParam) (nonce : String)
    (m : SiweMessage) (a : String) (hp : parse siwe = some m)
    (ha : env.recover (canonicalize m) signature = some a) :
    login env siwe signature daoLogin re nonce =
      (Except.ok ⟨(verify env m signature nonce daoLogin).success,
                  (verify env m signature nonce daoLogin).error,
                  ⟨m, signature, daoLogin, ensOf env re m⟩⟩,
       [⟨"did:pkh:eip155:" ++ m.chainId ++ ":" ++ m.address,
         SSXEventLogTypes.LOGIN, signature, siwe,
         daoLogin && !(a == m.address)⟩]) := by
  unfold login
  rw [hp]
  simp only [verify_data, ha]

/-- Unfolding of `login` on a parsable input whose classification recovery
throws: the exception is rethrown and no event is dispatched. -/
theorem login_recovery_throw (env : Env) (siwe : Raw) (signature : String)
    (daoLogin : Bool) (re : ResolveEnsParam) (nonce : String)
    (m : SiweMessage) (hp : parse siwe = some m)
    (ha : env.recover (canonicalize m) signature = none) :
    login env siwe signature daoLogin re nonce =
      (Except.error LoginThrow.recoveryError, []) := by
  unfold login
  rw [hp]
  simp only [verify_data, ha]

/-- Unfolding of `login` on an unparsable input: the constructor throw
escapes and no event is dispatched. -/
theorem login_parse_throw (env : Env) (siwe : Raw) (signature : String)
    (daoLogin : Bool) (re : ResolveEnsParam) (nonce : String)
    (hp : parse siwe = none) :
    login env siwe signature daoLogin re nonce =
      (Except.error LoginThrow.parseError, []) := by
  unfold login
  rw [hp]

/-- Verification of an expired message with a matching nonce fails with
Expired. -/
theorem verify_expired (env : Env) (m : SiweMessage) (s n : String)
    (f : Bool) (hn : m.nonce = n) (he : isExpired env.now m = true) :
    verify env m s n f = ⟨false, some SiweErrorKind.expired, m, false⟩ := by
  unfold verify
  rw [if_neg (not_not_intro hn), if_pos (by simp [he])]

/-- With the fallback enabled but the on-chain predicate rejecting,
verification of a matching, unexpired message whose direct recovery misses
fails with InvalidSignature. -/
theorem verify_invalid_onChainFail (env : Env) (m : SiweMessage)
    (s n : String) (hn : m.nonce = n) (he : isExpired env.now m = false)
    (hd : env.recover (canonicalize m) s ≠ some m.address)
    (hc : env.verifyOnChain m.address (canonicalize m) s = false) :
    verify env m s n true =
      ⟨false, some SiweErrorKind.invalidSignature, m, false⟩ := by
  unfold verify
  rw [if_neg (not_not_intro hn), if_neg (by simp [he]), if_neg hd,
    if_neg (by simp [hc])]

/-- Claim C1 counterexample: a login attempt whose verification fails with a
nonce mismatch still returns a fully populated session record alongside the
failure, refuting the claim that every failure returns a null session. -/
theorem login_failure_returns_session_object :
    (login envA (canonicalize msgA) "sig" false ResolveEnsParam.off "zzz").1 =
      Except.ok ⟨false, some SiweErrorKind.nonceMismatch,
                 ⟨msgA, "sig", false, none⟩⟩ := by
  decide

/-- Claim C1 (amended): every failure that `login` returns carries
success = false together with the verification error, but the session field
always holds the fully assembled record (parsed message, signature, daoLogin
flag, ens data); no failure returns a null session. -/
theorem login_failure_result_shape (env : Env) (siwe : Raw)
    (signature : String) (daoLogin : Bool) (re : ResolveEnsParam)
    (nonce : String) (m : SiweMessage) (r : LoginResult)
    (hp : parse siwe = some m)
    (hok : (login env siwe signature daoLogin re nonce).1 = Except.ok r)
    (hf : r.success = false) :
    r.error = (verify env m signature nonce daoLogin).error ∧
    r.session = ⟨m, signature, daoLogin, ensOf env re m⟩ := by
  cases ha : env.recover (canonicalize m) signature with
  | none =>
    rw [login_recovery_throw env siwe signature daoLogin re nonce m hp ha]
      at hok
    simp at hok
  | some a =>
    rw [login_eq env siwe signature daoLogin re nonce m a hp ha] at hok
    have hr := Except.ok.inj hok
    subst hr
    exact ⟨rfl, rfl⟩

/-- Claim C1 witness: the amended statement instantiated at a concrete
nonce-mismatch failure. -/
theorem login_failure_result_shape_witness :
    (⟨false, some SiweErrorKind.nonceMismatch,
      ⟨msgA, "w1", false, none⟩⟩ : LoginResult).error =
      (verify envA msgA "w1" "nope" false).error ∧
    (⟨false, some SiweErrorKind.nonceMismatch,
      ⟨msgA, "w1", false, none⟩⟩ : LoginResult).session =
      ⟨msgA, "w1", false, ensOf envA ResolveEnsParam.off msgA⟩ :=
  login_failure_result_shape envA (canonicalize msgA) "w1" false
    ResolveEnsParam.off "nope" msgA
    ⟨false, some SiweErrorKind.nonceMismatch, ⟨msgA, "w1", false, none⟩⟩
    (by decide) (by decide) rfl

/-- Claim C3 counterexample: a malformed raw message makes the message
constructor throw, and the exception escapes `login` instead of being
surfaced in the error field, refuting the claim that parsing errors are never
thrown past the API boundary. -/
theorem parse_error_escapes_login :
    login envA [['x']] "s" false ResolveEnsParam.off "n" =
      (Except.error LoginThrow.parseError, []) := by
  decide

/-- Claim C3 (amended): on a parsable message whose classification recovery
returns an address, `login` returns normally and surfaces the verification
outcome (success flag and error kind) in the result; parsing errors from the
message constructor and classification recovery exceptions, by contrast,
escape `login`. -/
theorem verification_errors_surfaced (env : Env) (siwe : Raw)
    (signature : String) (daoLogin : Bool) (re : ResolveEnsParam)
    (nonce : String) (m : SiweMessage) (a : String)
    (hp : parse siwe = some m)
    (ha : env.recover (canonicalize m) signature = some a) :
    (login env siwe signature daoLogin re nonce).1 =
      Except.ok ⟨(verify env m signature nonce daoLogin).success,
                 (verify env m signature nonce daoLogin).error,
                 ⟨m, signature, daoLogin, ensOf env re m⟩⟩ := by
  rw [login_eq env siwe signature daoLogin re nonce m a hp ha]

/-- Claim C3 witness: the amended statement instantiated at a concrete
invalid-signature failure, whose error kind is surfaced in the result. -/
theorem verification_errors_surfaced_witness :
    (login envB (canonicalize msgA) "s3" false ResolveEnsParam.off
        "abc123").1 =
      Except.ok ⟨(verify envB msgA "s3" "abc123" false).success,
                 (verify envB msgA "s3" "abc123" false).error,
                 ⟨msgA, "s3", false, ensOf envB ResolveEnsParam.off msgA⟩⟩ :=
  verification_errors_surfaced envB (canonicalize msgA) "s3" false
    ResolveEnsParam.off "abc123" msgA "0xCC" (by decide) rfl

/-- Claim C6 counterexample: a message whose nonce differs from the expected
nonce, signed with a signature that direct recovery cannot process, makes
`login` throw the recovery exception instead of failing with NonceMismatch,
refuting the claim that the nonce error is reported regardless of the
signature. -/
theorem nonce_mismatch_swallowed_by_recovery_throw :
    msgA.nonce ≠ "wrongnonce" ∧
    login envN (canonicalize msgA) "gsig" false ResolveEnsParam.off
      "wrongnonce" = (Except.error LoginThrow.recoveryError, []) := by
  constructor
  · decide
  · decide

/-- Claim C6 (amended): for every message whose nonce differs from the
expected nonce, provided classification recovery returns an address for the
signature, `login` fails with NonceMismatch whatever the rest of the
configuration; when recovery throws, the exception escapes instead. -/
theorem nonce_mismatch_surfaced (env : Env) (siwe : Raw) (signature : String)
    (daoLogin : Bool) (re : ResolveEnsParam) (nonce : String)
    (m : SiweMessage) (a : String) (hp : parse siwe = some m)
    (ha : env.recover (canonicalize m) signature = some a)
    (hn : m.nonce ≠ nonce) :
    (login env siwe signature daoLogin re nonce).1 =
      Except.ok ⟨false, some SiweErrorKind.nonceMismatch,
                 ⟨m, signature, daoLogin, ensOf env re m⟩⟩ := by
  rw [login_eq env siwe signature daoLogin re nonce m a hp ha,
    verify_nonceMismatch env m signature nonce daoLogin hn]

/-- Claim C6 witness: the amended statement instantiated at a concrete
nonce-mismatched login with an otherwise valid signature. -/
theorem nonce_mismatch_surfaced_witness :
    (login envA (canonicalize msgA) "w6" true ResolveEnsParam.off "zzz6").1 =
      Except.ok ⟨false, some SiweErrorKind.nonceMismatch,
                 ⟨msgA, "w6", true, ensOf envA ResolveEnsParam.off msgA⟩⟩ :=
  nonce_mismatch_surfaced envA (canonicalize msgA) "w6" true
    ResolveEnsParam.off "zzz6" msgA "0xAb1" (by decide) rfl (by decide)

/-- Claim C8: `logout` with no destroy capability returns `undefined`
(modelled `none`), not the success value `true` promised by the claim and by
the method's own documentation; with a capability it passes the capability's
boolean result through. -/
theorem logout_undefined_without_capability :
    logout none = none ∧
    logout (some fun _ => true) = some true ∧
    logout (some fun _ => false) = some false :=
  ⟨rfl, rfl, rfl⟩

/-- Claim C9: for every valid sign-in message, re-parsing the canonical
serialized payload re-derives an identical canonical signing payload
(round-trip stability of the codec). -/
theorem roundtrip_canonical (m : SiweMessage) (h : wellFormed m = true) :
    (parse (canonicalize m)).map canonicalize = some (canonicalize m) := by
  have hf : fieldOk m = true := by
    simp only [wellFormed, Bool.and_eq_true] at h
    exact h.1.1.1.1.1.1.1.1.1.1
  rw [parse_canonicalize m hf]
  rfl

/-- Claim C9 witness: round-trip stability at a concrete fixture carrying an
expiration timestamp and a nonempty resources list. -/
theorem roundtrip_canonical_witness :
    wellFormed msgR = true ∧
    (parse (canonicalize msgR)).map canonicalize =
      some (canonicalize msgR) :=
  ⟨by decide, roundtrip_canonical msgR (by decide)⟩

/-- Claim C10: when verification itself succeeded but the classification
recomputation re-runs direct recovery over the verified message and that
recovery throws (a signature format direct recovery cannot process, as on a
fallback-verified contract-wallet login), the exception escapes `login`. -/
theorem recovery_throw_escapes (env : Env) (siwe : Raw) (signature : String)
    (daoLogin : Bool) (re : ResolveEnsParam) (nonce : String)
    (m : SiweMessage) (hp : parse siwe = some m)
    (ha : env.recover (canonicalize m) signature = none)
    (hs : (verify env m signature nonce daoLogin).success = true) :
    login env siwe signature daoLogin re nonce =
      (Except.error LoginThrow.recoveryError, []) :=
  login_recovery_throw env siwe signature daoLogin re nonce m hp ha

/-- Claim C10 witness: a fallback-verified contract-wallet login whose
signature direct recovery cannot process throws past the boundary. -/
theorem recovery_throw_escapes_witness :
    login envN (canonicalize msgA) "g2" true ResolveEnsParam.off "abc123" =
      (Except.error LoginThrow.recoveryError, []) :=
  recovery_throw_escapes envN (canonicalize msgA) "g2" true
    ResolveEnsParam.off "abc123" msgA (by decide) rfl (by decide)

/-- Claim C2: for every login attempt that returns a result whose
verification succeeded, the isGnosis classification in the audit event
content equals the verification outcome's contractFallbackUsed flag — the
classification reflects the verification outcome (when daoLoginRequested is
false the fallback verifier is never supplied, so fallback-only success
cannot arise there, and both sides are false). -/
theorem audit_reflects_fallback_usage (env : Env) (siwe : Raw)
    (signature : String) (daoLogin : Bool) (re : ResolveEnsParam)
    (nonce : String) (m : SiweMessage) (r : LoginResult) (ev : AuditEvent)
    (hp : parse siwe = some m)
    (h1 : (login env siwe signature daoLogin re nonce).1 = Except.ok r)
    (h2 : (login env siwe signature daoLogin re nonce).2 = [ev])
    (hs : r.success = true) :
    ev.isGnosis = (verify env m signature nonce daoLogin).contractFallbackUsed := by
  cases ha : env.recover (canonicalize m) signature with
  | none =>
    rw [login_recovery_throw env siwe signature daoLogin re nonce m hp ha]
      at h1
    simp at h1
  | some a =>
    rw [login_eq env siwe signature daoLogin re nonce m a hp ha] at h1 h2
    have hr := Except.ok.inj h1
    subst hr
    have hev := (List.cons.injEq _ _ _ _).mp h2
    rw [← hev.1]
    by_cases hn : m.nonce = nonce
    · by_cases hex : isExpired env.now m = true
      · rw [verify_expired env m signature nonce daoLogin hn hex] at hs
        simp at hs
      · have he : isExpired env.now m = false := by
          simpa using hex
        by_cases hd : env.recover (canonicalize m) signature = some m.address
        · have haa : a = m.address := by
            rw [ha] at hd
            exact Option.some.inj hd
          rw [verify_direct_ok env m signature nonce daoLogin hn he hd]
          simp [haa]
        · have hne : a ≠ m.address := by
            intro hcontra
            exact hd (by rw [ha, hcontra])
          cases daoLogin with
          | false =>
            rw [verify_invalid_noFallback env m signature nonce hn he hd]
              at hs
            simp at hs
          | true =>
            by_cases hc :
                env.verifyOnChain m.address (canonicalize m) signature = true
            · rw [verify_fallback_ok env m signature nonce hn he hd hc]
              simp [hne]
            · have hc' :
                  env.verifyOnChain m.address (canonicalize m) signature =
                    false := by
                simpa using hc
              rw [verify_invalid_onChainFail env m signature nonce hn he hd
                hc'] at hs
              simp at hs
    · rw [verify_nonceMismatch env m signature nonce daoLogin hn] at hs
      simp at hs

/-- Claim C2 witness: a fallback-verified contract-wallet login whose audit
event reports the fallback usage of the verification outcome. -/
theorem audit_reflects_fallback_usage_witness :
    (⟨"did:pkh:eip155:1:0xAb1", SSXEventLogTypes.LOGIN, "s2",
      canonicalize msgA, true⟩ : AuditEvent).isGnosis =
      (verify envB msgA "s2" "abc123" true).contractFallbackUsed :=
  audit_reflects_fallback_usage envB (canonicalize msgA) "s2" true
    ResolveEnsParam.off "abc123" msgA
    ⟨true, none, ⟨msgA, "s2", true, none⟩⟩
    ⟨"did:pkh:eip155:1:0xAb1", SSXEventLogTypes.LOGIN, "s2",
     canonicalize msgA, true⟩
    (by decide) (by decide) (by decide) rfl

/-- Claim C4: identity resolution is non-fatal — for a login whose signature
verification succeeds and which returns a result, replaying the same attempt
with the naming-service lookup failing (an internal error or lookup miss)
still returns, with the same success flag and error, and with an empty
IdentityData wherever resolution was requested. -/
theorem ens_failure_nonfatal (env : Env) (siwe : Raw) (signature : String)
    (daoLogin : Bool) (re : ResolveEnsParam) (nonce : String)
    (m : SiweMessage) (r : LoginResult) (hp : parse siwe = some m)
    (hs : (verify env m signature nonce daoLogin).success = true)
    (hok : (login env siwe signature daoLogin re nonce).1 = Except.ok r) :
    ∃ r', (login {env with ensLookup := none} siwe signature daoLogin re
        nonce).1 = Except.ok r' ∧
      r'.success = r.success ∧ r'.error = r.error ∧
      (re ≠ ResolveEnsParam.off → r'.session.ens = some emptyEns) := by
  cases ha : env.recover (canonicalize m) signature with
  | none =>
    rw [login_recovery_throw env siwe signature daoLogin re nonce m hp ha]
      at hok
    simp at hok
  | some a =>
    rw [login_eq env siwe signature daoLogin re nonce m a hp ha] at hok
    have hr := Except.ok.inj hok
    subst hr
    refine ⟨⟨(verify env m signature nonce daoLogin).success,
             (verify env m signature nonce daoLogin).error,
             ⟨m, signature, daoLogin,
              ensOf {env with ensLookup := none} re m⟩⟩, ?_, rfl, rfl, ?_⟩
    · rw [login_eq {env with ensLookup := none} siwe signature daoLogin re
        nonce m a hp ha]
      rfl
    · intro hre
      cases re with
      | off => exact absurd rfl hre
      | enabled => rfl
      | withOpts o => rfl

/-- Claim C4 witness: a successful login with a successful lookup, replayed
with the lookup failing, still succeeds with empty identity data. -/
theorem ens_failure_nonfatal_witness :
    ∃ r', (login {envC with ensLookup := none} (canonicalize msgA) "s" false
        ResolveEnsParam.enabled "abc123").1 = Except.ok r' ∧
      r'.success = (⟨true, none, ⟨msgA, "s", false,
        some ⟨some "alice.eth", none⟩⟩⟩ : LoginResult).success ∧
      r'.error = (⟨true, none, ⟨msgA, "s", false,
        some ⟨some "alice.eth", none⟩⟩⟩ : LoginResult).error ∧
      (ResolveEnsParam.enabled ≠ ResolveEnsParam.off →
        r'.session.ens = some emptyEns) :=
  ens_failure_nonfatal envC (canonicalize msgA) "s" false
    ResolveEnsParam.enabled "abc123" msgA
    ⟨true, none, ⟨msgA, "s", false, some ⟨some "alice.eth", none⟩⟩⟩
    (by decide) (by decide) (by decide)

/-- Claim C5 counterexample: for a contract-account signer whose signature
direct recovery cannot process, verification with the fallback enabled and a
passing on-chain predicate succeeds with contractFallbackUsed = true, yet
`login` does not succeed — it throws the classification recovery exception,
refuting the claim's success branch. -/
theorem contract_signer_claim_fails :
    (verify envN msgA "gsig" "abc123" true).success = true ∧
    (verify envN msgA "gsig" "abc123" true).contractFallbackUsed = true ∧
    login envN (canonicalize msgA) "gsig" true ResolveEnsParam.off "abc123" =
      (Except.error LoginThrow.recoveryError, []) := by
  refine ⟨by decide, by decide, by decide⟩

/-- Claim C5 (amended): for a contract-account signer whose signature direct
recovery processes to an address different from the claimed one, on a
matching, unexpired message: with the fallback disabled the result is
independent of the on-chain predicate (the fallback verifier is never
consulted) and `login` fails with InvalidSignature; with the fallback enabled
and a passing on-chain predicate `login` succeeds and the audit event reports
the fallback.  When direct recovery instead throws, `login` throws during
classification even though fallback verification succeeded. -/
theorem contract_signer_fallback_gating (env : Env)
    (f : String → Raw → String → Bool) (siwe : Raw) (signature : String)
    (re : ResolveEnsParam) (nonce : String) (m : SiweMessage) (a : String)
    (hp : parse siwe = some m)
    (ha : env.recover (canonicalize m) signature = some a)
    (hne : a ≠ m.address) (hn : m.nonce = nonce)
    (he : isExpired env.now m = false) :
    (login {env with verifyOnChain := f} siwe signature false re nonce =
       login env siwe signature false re nonce) ∧
    ((login env siwe signature false re nonce).1 =
       Except.ok ⟨false, some SiweErrorKind.invalidSignature,
                  ⟨m, signature, false, ensOf env re m⟩⟩) ∧
    (env.verifyOnChain m.address (canonicalize m) signature = true →
      login env siwe signature true re nonce =
        (Except.ok ⟨true, none, ⟨m, signature, true, ensOf env re m⟩⟩,
         [⟨"did:pkh:eip155:" ++ m.chainId ++ ":" ++ m.address,
           SSXEventLogTypes.LOGIN, signature, siwe, true⟩])) := by
  have hd : env.recover (canonicalize m) signature ≠ some m.address := by
    intro hcontra
    rw [ha] at hcontra
    exact hne (Option.some.inj hcontra)
  have hb : (a == m.address) = false := by
    simp [hne]
  refine ⟨?_, ?_, ?_⟩
  · rw [login_eq {env with verifyOnChain := f} siwe signature false re nonce
      m a hp ha, login_eq env siwe signature false re nonce m a hp ha,
      verify_invalid_noFallback {env with verifyOnChain := f} m signature
        nonce hn he hd,
      verify_invalid_noFallback env m signature nonce hn he hd]
    rfl
  · rw [login_eq env siwe signature false re nonce m a hp ha,
      verify_invalid_noFallback env m signature nonce hn he hd]
  · intro hc
    rw [login_eq env siwe signature true re nonce m a hp ha,
      verify_fallback_ok env m signature nonce hn he hd hc]
    simp [hb]

/-- Claim C5 witness: the amended statement instantiated at a concrete
contract-account signer whose signature recovery yields a different
address. -/
theorem contract_signer_fallback_gating_witness :
    (login {envB with verifyOnChain := fun _ _ _ => false}
       (canonicalize msgA) "s4" false ResolveEnsParam.off "abc123" =
     login envB (canonicalize msgA) "s4" false ResolveEnsParam.off
       "abc123") ∧
    ((login envB (canonicalize msgA) "s4" false ResolveEnsParam.off
        "abc123").1 =
      Except.ok ⟨false, some SiweErrorKind.invalidSignature,
                 ⟨msgA, "s4", false, ensOf envB ResolveEnsParam.off msgA⟩⟩) ∧
    login envB (canonicalize msgA) "s4" true ResolveEnsParam.off "abc123" =
      (Except.ok ⟨true, none,
         ⟨msgA, "s4", true, ensOf envB ResolveEnsParam.off msgA⟩⟩,
       [⟨"did:pkh:eip155:" ++ msgA.chainId ++ ":" ++ msgA.address,
         SSXEventLogTypes.LOGIN, "s4", canonicalize msgA, true⟩]) := by
  have h := contract_signer_fallback_gating envB (fun _ _ _ => false)
    (canonicalize msgA) "s4" ResolveEnsParam.off "abc123" msgA "0xCC"
    (by decide) rfl (by decide) rfl rfl
  exact ⟨h.1, h.2.1, h.2.2 rfl⟩

/-- Claim C7 counterexample: a login attempt whose classification recovery
throws dispatches no audit event at all, refuting the claim that every
attempted login produces exactly one event. -/
theorem attempted_login_without_event :
    login envN (canonicalize msgA) "xsig" false ResolveEnsParam.enabled
      "abc123" = (Except.error LoginThrow.recoveryError, []) := by
  decide

/-- Claim C7 (amended): every login attempt that returns a result —
successful or failed — dispatches exactly one audit event, of type LOGIN,
whose subject identifier is did:pkh:eip155:(chainId):(address) of the
verified message, and the attempt's outcome does not depend on the event
sink's availability; attempts that throw dispatch no event. -/
theorem audit_event_on_return (env : Env) (b : Bool) (siwe : Raw)
    (signature : String) (daoLogin : Bool) (re : ResolveEnsParam)
    (nonce : String) (m : SiweMessage) (r : LoginResult)
    (hp : parse siwe = some m)
    (hok : (login env siwe signature daoLogin re nonce).1 = Except.ok r) :
    (∃ a, env.recover (canonicalize m) signature = some a ∧
       (login env siwe signature daoLogin re nonce).2 =
         [⟨"did:pkh:eip155:" ++ m.chainId ++ ":" ++ m.address,
           SSXEventLogTypes.LOGIN, signature, siwe,
           daoLogin && !(a == m.address)⟩]) ∧
    login {env with sinkOk := b} siwe signature daoLogin re nonce =
      login env siwe signature daoLogin re nonce := by
  cases ha : env.recover (canonicalize m) signature with
  | none =>
    rw [login_recovery_throw env siwe signature daoLogin re nonce m hp ha]
      at hok
    simp at hok
  | some a =>
    constructor
    · refine ⟨a, rfl, ?_⟩
      rw [login_eq env siwe signature daoLogin re nonce m a hp ha]
    · rw [login_eq {env with sinkOk := b} siwe signature daoLogin re nonce m
        a hp ha, login_eq env siwe signature daoLogin re nonce m a hp ha]
      rfl

/-- Claim C7 witness: the amended statement instantiated at a concrete
successful login. -/
theorem audit_event_on_return_witness :
    (∃ a, envA.recover (canonicalize msgA) "s7" = some a ∧
       (login envA (canonicalize msgA) "s7" false ResolveEnsParam.off
          "abc123").2 =
         [⟨"did:pkh:eip155:" ++ msgA.chainId ++ ":" ++ msgA.address,
           SSXEventLogTypes.LOGIN, "s7", canonicalize msgA,
           false && !(a == msgA.address)⟩]) ∧
    login {envA with sinkOk := false} (canonicalize msgA) "s7" false
        ResolveEnsParam.off "abc123" =
      login envA (canonicalize msgA) "s7" false ResolveEnsParam.off
        "abc123" :=
  audit_event_on_return envA false (canonicalize msgA) "s7" false
    ResolveEnsParam.off "abc123" msgA
    ⟨true, none, ⟨msgA, "s7", false, none⟩⟩ (by decide) (by decide)

end SSX
